import Mathlib

/-!
Formal model of the agent-communication module (`l4_agent_commm.py`).

The module defines two actors built on a cyclic behaviour:
a `CoordinatorAgent` and a `FieldAgent`.  Each loop iteration receives at
most one message, routes it by its FIPA-ACL performative, fires proactive
sends keyed to per-actor counters, and appends a formatted entry to a log
file for every message sent or received.

The embedding below is a shallow one:

* Python values that can appear in a parsed JSON payload are `PyValue`.
* `json_loads` / `pyDumps` model the standard-library `json.loads` and
  `json.dumps` (default options: `ensure_ascii=True`, separators
  `", "` and `": "`).  `json.loads` of non-JSON input returns `none`
  (the Python exception caught by the module's bare `except:`).
  Two stdlib corner cases are simplified: surrogate-pair decoding of
  `\uXXXX` escapes and the exact decimal rendering of floats (non-integer
  numbers keep their source lexeme); neither is exercised by any theorem.
* Each actor's `run` is a function from the behaviour state, the inbound
  message of this iteration (`Option Msg`) and the clock to a `RunResult`:
  the successor state, the ordered list of observable effects (transport
  sends and log-file writes; console prints are not modelled), and the
  exception, if any, escaping the iteration.  Transport failures are
  modelled by `Ctx.deliver`, giving the outcome of the k-th send attempt
  of the iteration; a failed send raises `DeliveryError`.  Attribute
  errors from calling `.get` on a non-dict parsed payload are modelled by
  `PyErr.attributeError`.  Since the Python `run` methods contain no
  `try`/`except`, any such exception aborts the iteration.
-/

/-- A Python value as produced by `json.loads`: strings, ints, other
numbers (kept as their source lexeme), booleans, `None`, lists and
string-keyed dicts. -/
inductive PyValue where
  | str : String → PyValue
  | int : Int → PyValue
  | num : String → PyValue
  | bool : Bool → PyValue
  | none : PyValue
  | list : List PyValue → PyValue
  | dict : List (String × PyValue) → PyValue

/-- Exceptions that can escape an iteration of the behaviour loops. -/
inductive PyErr where
  | deliveryError : PyErr
  | attributeError : PyErr
deriving DecidableEq

/-- A transport message: sender and recipient JIDs, metadata (the module
only ever sets the key `performative`), and the string body.  `toAddr`
models the `to` attribute (a Lean keyword). -/
structure Msg where
  sender : String
  toAddr : String
  metadata : List (String × String)
  body : String
deriving DecidableEq

/-- The two timestamp renderings used by the module, both obtained from
`datetime.now()` under a fixed clock: `full` is
`"%Y-%m-%d %H:%M:%S"` (log entries), `hm` is `"%H:%M:%S"` (bodies). -/
structure Clock where
  full : String
  hm : String
deriving DecidableEq

/-- One log-file entry, as built by the `log_message` methods.
`agentName` is `some` for the field agent (whose entries carry an extra
`Agent:` line) and `none` for the coordinator. -/
structure LogEntry where
  timestamp : String
  direction : String
  performative : String
  agentName : Option String
  party : String
  body : String
deriving DecidableEq

/-- An observable effect of one loop iteration: a successful transport
send, or a log-file append. -/
inductive Effect where
  | sent : Msg → Effect
  | logged : LogEntry → Effect
deriving DecidableEq

/-- Result of one loop iteration: successor behaviour state, ordered
effect trace, and the exception (if any) escaping the iteration. -/
structure RunResult (σ : Type) where
  state : σ
  effects : List Effect
  err : Option PyErr

/-- Transport model: `deliver k` tells whether the k-th send attempt of
the current iteration succeeds (`False` makes `send` raise
`DeliveryError`). -/
structure Ctx where
  deliver : Nat → Bool

/-- Transport in which every send succeeds. -/
def okCtx : Ctx := ⟨fun _ => true⟩

/-- Transport in which every send raises `DeliveryError`. -/
def failCtx : Ctx := ⟨fun _ => false⟩

/-- Model of `str(msg.sender).split("@")[0]`: the part before the first `@`. -/
def localPart (s : String) : String :=
  String.mk (s.data.takeWhile (fun c => !(c == '@')))

/-- Model of `metadata.get(key, default)` on the message metadata dict. -/
def metaGetD (meta : List (String × String)) (key dflt : String) : String :=
  match meta.find? (fun p => p.1 == key) with
  | some p => p.2
  | Option.none => dflt

/-- Model of `msg.metadata.get("performative", "unknown")`. -/
def msgPerf (m : Msg) : String := metaGetD m.metadata "performative" "unknown"

/-- Model of `key in content` for a dict. -/
def hasKey (d : List (String × PyValue)) (k : String) : Bool :=
  d.any (fun p => p.1 == k)

/-- Model of `content.get(k)` as an `Option`. -/
def dictGet? (d : List (String × PyValue)) (k : String) : Option PyValue :=
  (d.find? (fun p => p.1 == k)).map (fun p => p.2)

/-- Model of `content.get(k, dflt)`. -/
def dictGetD (d : List (String × PyValue)) (k : String) (dflt : PyValue) : PyValue :=
  match dictGet? d k with
  | some v => v
  | Option.none => dflt

/-- Model of `content.get(k)` (default `None`). -/
def dictGetNone (d : List (String × PyValue)) (k : String) : PyValue :=
  dictGetD d k PyValue.none

/-- Python `==` between an arbitrary value and a string literal: true
exactly for the equal string (values of other types compare unequal). -/
def pyEqStr (v : PyValue) (s : String) : Bool :=
  match v with
  | PyValue.str t => t == s
  | _ => false

/-- Model of `dict` insertion while parsing a JSON object: an existing key is
overwritten in place, a new key is appended (Python dict semantics). -/
def dictInsert (acc : List (String × PyValue)) (k : String) (v : PyValue) :
    List (String × PyValue) :=
  if acc.any (fun p => p.1 == k) then
    acc.map (fun p => if p.1 == k then (k, v) else p)
  else acc ++ [(k, v)]

/-- JSON whitespace accepted between tokens by `json.loads`. -/
def skipWs : List Char → List Char
  | c :: cs =>
      if c == ' ' || c == '\t' || c == '\n' || c == '\r' then skipWs cs
      else c :: cs
  | [] => []

/-- Hex digit value, for `\uXXXX` escapes. -/
def hexVal (c : Char) : Option Nat :=
  if '0' ≤ c ∧ c ≤ '9' then some (c.toNat - 48)
  else if 'a' ≤ c ∧ c ≤ 'f' then some (c.toNat - 87)
  else if 'A' ≤ c ∧ c ≤ 'F' then some (c.toNat - 55)
  else Option.none

/-- Body of a JSON string after the opening quote.  Returns the decoded
characters and the input remaining after the closing quote.  Raw control
characters are rejected (strict mode).  A lone `\uXXXX` escape decodes to
the code point directly (surrogate pairing is not modelled). -/
def parseStrAux : Nat → List Char → Option (List Char × List Char)
  | 0, _ => Option.none
  | _, [] => Option.none
  | fuel + 1, c :: cs =>
      if c == '"' then some ([], cs)
      else if c == '\\' then
        match cs with
        | [] => Option.none
        | e :: cs' =>
            if e == 'u' then
              match cs' with
              | h1 :: h2 :: h3 :: h4 :: cs'' =>
                  match hexVal h1, hexVal h2, hexVal h3, hexVal h4 with
                  | some a, some b, some c3, some d4 =>
                      let n := ((a * 16 + b) * 16 + c3) * 16 + d4
                      (parseStrAux fuel cs'').map
                        (fun r => (Char.ofNat n :: r.1, r.2))
                  | _, _, _, _ => Option.none
              | _ => Option.none
            else
              let esc : Option Char :=
                if e == '"' then some '"'
                else if e == '\\' then some '\\'
                else if e == '/' then some '/'
                else if e == 'b' then some (Char.ofNat 8)
                else if e == 'f' then some (Char.ofNat 12)
                else if e == 'n' then some '\n'
                else if e == 'r' then some '\r'
                else if e == 't' then some '\t'
                else Option.none
              match esc with
              | some ch => (parseStrAux fuel cs').map (fun r => (ch :: r.1, r.2))
              | Option.none => Option.none
      else if c.toNat < 32 then Option.none
      else (parseStrAux fuel cs).map (fun r => (c :: r.1, r.2))

/-- Decimal digits prefix of the input. -/
def takeDigits (cs : List Char) : List Char × List Char :=
  (cs.takeWhile Char.isDigit, cs.dropWhile Char.isDigit)

/-- Natural-number value of a digit list. -/
def digitsToNat (ds : List Char) : Nat :=
  ds.foldl (fun a c => a * 10 + (c.toNat - 48)) 0

/-- A JSON number per the RFC grammar: optional minus, integer part with
no leading zeros, optional fraction, optional exponent.  A number with a
fraction or exponent becomes `PyValue.num` holding its lexeme (Python
would produce a float); otherwise `PyValue.int`. -/
def parseNumber (cs : List Char) : Option (PyValue × List Char) :=
  let (sign, cs1) :=
    match cs with
    | '-' :: rest => (true, rest)
    | _ => (false, cs)
  let ipart : Option (List Char × List Char) :=
    match cs1 with
    | '0' :: rest => some (['0'], rest)
    | c :: _ =>
        if c.isDigit then
          let (ds, rest) := takeDigits cs1
          some (ds, rest)
        else Option.none
    | [] => Option.none
  match ipart with
  | Option.none => Option.none
  | some (ids, cs2) =>
      let (fds, cs3) :=
        match cs2 with
        | '.' :: rest =>
            let (ds, rest') := takeDigits rest
            if ds.isEmpty then (([] : List Char), cs2) else ('.' :: ds, rest')
        | _ => (([] : List Char), cs2)
      let (eds, cs4) :=
        match cs3 with
        | e :: rest =>
            if e == 'e' || e == 'E' then
              match rest with
              | s :: rest' =>
                  if s == '+' || s == '-' then
                    let (ds, rest'') := takeDigits rest'
                    if ds.isEmpty then (([] : List Char), cs3) else (e :: s :: ds, rest'')
                  else
                    let (ds, rest'') := takeDigits rest
                    if ds.isEmpty then (([] : List Char), cs3) else (e :: ds, rest'')
              | [] => (([] : List Char), cs3)
            else (([] : List Char), cs3)
        | [] => (([] : List Char), cs3)
      if fds.isEmpty && eds.isEmpty then
        let n : Int := Int.ofNat (digitsToNat ids)
        some (PyValue.int (if sign then -n else n), cs2)
      else
        let lex := (if sign then ['-'] else []) ++ ids ++ fds ++ eds
        some (PyValue.num (String.mk lex), cs4)

/-- Does `lit` start the input?  Returns the remainder if so. -/
def matchLit : List Char → List Char → Option (List Char)
  | [], cs => some cs
  | _, [] => Option.none
  | l :: ls, c :: cs => if l == c then matchLit ls cs else Option.none

/-- Members of a JSON object after the opening brace (first member not
yet consumed).  `pv` parses one JSON value (it is `parseValue` at the
enclosing fuel). -/
def parseMembersAux (pv : List Char → Option (PyValue × List Char)) :
    Nat → List Char → List (String × PyValue) →
    Option (List (String × PyValue) × List Char)
  | 0, _, _ => Option.none
  | fuel + 1, cs, acc =>
      match skipWs cs with
      | '"' :: cs1 =>
          match parseStrAux (cs1.length + 1) cs1 with
          | some (kcs, cs2) =>
              match skipWs cs2 with
              | ':' :: cs3 =>
                  match pv (skipWs cs3) with
                  | some (v, cs4) =>
                      let acc' := dictInsert acc (String.mk kcs) v
                      match skipWs cs4 with
                      | ',' :: cs5 => parseMembersAux pv fuel cs5 acc'
                      | '\x7d' :: cs5 => some (acc', cs5)
                      | _ => Option.none
                  | Option.none => Option.none
              | _ => Option.none
          | Option.none => Option.none
      | _ => Option.none

/-- Elements of a JSON array after the opening bracket (first element
not yet consumed). -/
def parseElementsAux (pv : List Char → Option (PyValue × List Char)) :
    Nat → List Char → List PyValue → Option (List PyValue × List Char)
  | 0, _, _ => Option.none
  | fuel + 1, cs, acc =>
      match pv (skipWs cs) with
      | some (v, cs1) =>
          match skipWs cs1 with
          | ',' :: cs2 => parseElementsAux pv fuel cs2 (acc ++ [v])
          | ']' :: cs2 => some (acc ++ [v], cs2)
          | _ => Option.none
      | Option.none => Option.none

/-- One JSON value at the head of the input (leading whitespace already
skipped). -/
def parseValue : Nat → List Char → Option (PyValue × List Char)
  | 0, _ => Option.none
  | fuel + 1, cs =>
      match cs with
      | [] => Option.none
      | c :: rest =>
          if c == '"' then
            (parseStrAux (rest.length + 1) rest).map
              (fun r => (PyValue.str (String.mk r.1), r.2))
          else if c == '\x7b' then
            match skipWs rest with
            | '\x7d' :: cs1 => some (PyValue.dict [], cs1)
            | cs1 => (parseMembersAux (parseValue fuel) (cs1.length + 1) cs1 []).map
                (fun r => (PyValue.dict r.1, r.2))
          else if c == '[' then
            match skipWs rest with
            | ']' :: cs1 => some (PyValue.list [], cs1)
            | cs1 => (parseElementsAux (parseValue fuel) (cs1.length + 1) cs1 []).map
                (fun r => (PyValue.list r.1, r.2))
          else if c == 't' then
            (matchLit ['r', 'u', 'e'] rest).map (fun r => (PyValue.bool true, r))
          else if c == 'f' then
            (matchLit ['a', 'l', 's', 'e'] rest).map (fun r => (PyValue.bool false, r))
          else if c == 'n' then
            (matchLit ['u', 'l', 'l'] rest).map (fun r => (PyValue.none, r))
          else parseNumber cs

/-- Model of `json.loads`: `none` models the exception raised on input
that is not a single JSON document. -/
def json_loads (s : String) : Option PyValue :=
  match parseValue (s.data.length + 1) (skipWs s.data) with
  | some (v, rest) => if skipWs rest = [] then some v else Option.none
  | Option.none => Option.none

/-- Model of `try: json.loads(raw) except: {"text": raw}` — the payload-parsing
idiom used by both `handle_incoming_message` methods. -/
def parsePayload (raw : String) : PyValue :=
  match json_loads raw with
  | some v => v
  | Option.none => PyValue.dict [("text", PyValue.str raw)]

/-- Is the parsed payload a mapping? -/
def isDict : PyValue → Bool
  | PyValue.dict _ => true
  | _ => false

/-- Lower-case hex digit. -/
def hexDigit (n : Nat) : Char :=
  if n < 10 then Char.ofNat (48 + n) else Char.ofNat (87 + n)

/-- Four lower-case hex digits, for `\uXXXX` escapes in `json.dumps`. -/
def hex4 (n : Nat) : String :=
  String.mk [hexDigit (n / 4096 % 16), hexDigit (n / 256 % 16),
    hexDigit (n / 16 % 16), hexDigit (n % 16)]

/-- Model of `json.dumps` escaping of one character (`ensure_ascii=True`):
printable ASCII other than quote and backslash is kept, the usual
short escapes are used, everything else becomes `\uXXXX` (with a
surrogate pair above the BMP). -/
def escChar (c : Char) : String :=
  let n := c.toNat
  if c == '"' then "\\\""
  else if c == '\\' then "\\\\"
  else if n == 8 then "\\b"
  else if n == 9 then "\\t"
  else if n == 10 then "\\n"
  else if n == 12 then "\\f"
  else if n == 13 then "\\r"
  else if 32 ≤ n ∧ n ≤ 126 then String.mk [c]
  else if n < 65536 then "\\u" ++ hex4 n
  else
    "\\u" ++ hex4 (55296 + (n - 65536) / 1024) ++ "\\u" ++ hex4 (56320 + (n - 65536) % 1024)

/-- A JSON string literal for `s`. -/
def jsonQuote (s : String) : String :=
  "\"" ++ String.join (s.data.map escChar) ++ "\""

mutual

/-- Model of `json.dumps` with its default options (item separator
`", "`, key separator `": "`). -/
def pyDumps : PyValue → String
  | PyValue.str s => jsonQuote s
  | PyValue.int i => toString i
  | PyValue.num lex => lex
  | PyValue.bool b => if b then "true" else "false"
  | PyValue.none => "null"
  | PyValue.list xs => "[" ++ dumpsList xs ++ "]"
  | PyValue.dict ps => "\x7b" ++ dumpsDict ps ++ "\x7d"

/-- Comma-joined serialization of array elements. -/
def dumpsList : List PyValue → String
  | [] => ""
  | [x] => pyDumps x
  | x :: xs => pyDumps x ++ ", " ++ dumpsList xs

/-- Comma-joined serialization of object members. -/
def dumpsDict : List (String × PyValue) → String
  | [] => ""
  | [p] => jsonQuote p.1 ++ ": " ++ pyDumps p.2
  | p :: ps => jsonQuote p.1 ++ ": " ++ pyDumps p.2 ++ ", " ++ dumpsDict ps

end

/- FIPA-ACL performative constants (class `Performative`). -/
namespace Performative

def INFORM : String := "inform"

def REQUEST : String := "request"

def PROPOSE : String := "propose"

def ACCEPT : String := "accept-proposal"

def REFUSE : String := "refuse"

def AGREE : String := "agree"

def CONFIRM : String := "confirm"

end Performative

/-- A 70-character separator line (`"="*70`, `"-"*70`). -/
def line70 (c : Char) : String := String.mk (List.replicate 70 c)

/-- Python `str.upper()` (ASCII). -/
def pyUpper (s : String) : String := String.mk (s.data.map Char.toUpper)

/-- The log entry built by `log_message(direction, msg, other_party)`:
the fields that `log_message` interpolates into the entry text. -/
def mkLogEntry (clk : Clock) (direction : String) (agentName : Option String)
    (party : String) (m : Msg) : LogEntry :=
  ⟨clk.full, direction, msgPerf m, agentName, party, m.body⟩

/-- The exact text appended to the log file for one entry — the
`log_entry` string built by `log_message` (the field agent's version
inserts the extra `Agent:` line). -/
def renderLogEntry (e : LogEntry) : String :=
  "\n" ++ line70 '=' ++ "\n" ++
  "[" ++ e.timestamp ++ "] " ++ e.direction ++ " - " ++ pyUpper e.performative ++ "\n" ++
  line70 '-' ++ "\n" ++
  (match e.agentName with
   | some a => "Agent: " ++ a ++ "\n"
   | Option.none => "") ++
  "From/To: " ++ e.party ++ "\n" ++
  "Performative: " ++ e.performative ++ "\n" ++
  "Content: " ++ e.body ++ "\n" ++
  line70 '=' ++ "\n"

/-- The part of a rendered log entry before the direction word. -/
def renderDirPre (e : LogEntry) : String :=
  "\n" ++ line70 '=' ++ "\n" ++ "[" ++ e.timestamp ++ "] "

/-- The part of a rendered log entry after the direction word. -/
def renderDirPost (e : LogEntry) : String :=
  " - " ++ pyUpper e.performative ++ "\n" ++
  line70 '-' ++ "\n" ++
  (match e.agentName with
   | some a => "Agent: " ++ a ++ "\n"
   | Option.none => "") ++
  "From/To: " ++ e.party ++ "\n" ++
  "Performative: " ++ e.performative ++ "\n" ++
  "Content: " ++ e.body ++ "\n" ++
  line70 '=' ++ "\n"

/-- Model of `await self.send(msg)` immediately followed by
`self.log_message("SENT", msg, party)` — the pattern at every send site
of the module.  `k` numbers the send attempts of the iteration; a failed
delivery raises `DeliveryError`, so nothing is sent or logged. -/
def attemptSend (ctx : Ctx) (k : Nat) (clk : Clock) (agentName : Option String)
    (party : String) (m : Msg) : List Effect × Nat × Option PyErr :=
  if ctx.deliver k then
    ([Effect.sent m, Effect.logged (mkLogEntry clk "SENT" agentName party m)],
      k + 1, Option.none)
  else ([], k + 1, some PyErr.deliveryError)

namespace CoordinatorAgent

/-- Mutable state of `CoordinatorAgent.CommunicationBehaviour`:
`message_count` and the never-populated `active_missions`. -/
structure CoordState where
  message_count : Nat
  active_missions : List PyValue

/-- State of a freshly constructed behaviour. -/
def coordInit : CoordState := ⟨0, []⟩

/-- Model of `dispatch_rescue_team(location)`: one `REQUEST` to the hardcoded
`fieldagent1@404.city`. -/
def dispatch_rescue_team (ctx : Ctx) (k : Nat) (clk : Clock) (location : PyValue) :
    List Effect × Nat × Option PyErr :=
  attemptSend ctx k clk Option.none "fieldagent1"
    ⟨"", "fieldagent1@404.city", [("performative", Performative.REQUEST)],
      pyDumps (PyValue.dict [("request", PyValue.str "deploy_rescue_team"),
        ("location", location), ("priority", PyValue.str "high"),
        ("timestamp", PyValue.str clk.hm)])⟩

/-- Model of `handle_inform(sender, content)`.  On a non-dict payload the
`content.get("status", ...)` in the status print raises
`AttributeError`. -/
def handle_inform (ctx : Ctx) (k : Nat) (clk : Clock) (content : PyValue) :
    List Effect × Nat × Option PyErr :=
  match content with
  | PyValue.dict d =>
      if hasKey d "disaster_detected" then
        dispatch_rescue_team ctx k clk (dictGetD d "location" (PyValue.str "unknown"))
      else ([], k, Option.none)
  | _ => ([], k, some PyErr.attributeError)

/-- Model of `handle_request(sender, content)`: unconditionally reply `AGREE`,
addressed to `str(sender) + "@404.city"` where `sender` is the local
part of the inbound sender address. -/
def handle_request (ctx : Ctx) (k : Nat) (clk : Clock) (sender : String)
    (content : PyValue) : List Effect × Nat × Option PyErr :=
  match content with
  | PyValue.dict d =>
      attemptSend ctx k clk Option.none sender
        ⟨"", sender ++ "@404.city", [("performative", Performative.AGREE)],
          pyDumps (PyValue.dict [("agreed_action", dictGetNone d "request"),
            ("timestamp", PyValue.str clk.hm)])⟩
  | _ => ([], k, some PyErr.attributeError)

/-- Model of `handle_agree(sender, content)`: purely observational (the print's
`content.get` still raises on a non-dict payload). -/
def handle_agree (k : Nat) (content : PyValue) : List Effect × Nat × Option PyErr :=
  match content with
  | PyValue.dict _ => ([], k, Option.none)
  | _ => ([], k, some PyErr.attributeError)

/-- Model of `handle_incoming_message(msg)`: log the reception, parse the body,
then route on the performative (unmatched performatives are ignored). -/
def handle_incoming_message (ctx : Ctx) (clk : Clock) (msg : Msg) :
    List Effect × Option PyErr :=
  let performative := msgPerf msg
  let sender := localPart msg.sender
  let content := parsePayload msg.body
  let branch : List Effect × Nat × Option PyErr :=
    if performative == Performative.INFORM then handle_inform ctx 0 clk content
    else if performative == Performative.REQUEST then handle_request ctx 0 clk sender content
    else if performative == Performative.AGREE then handle_agree 0 content
    else ([], 0, Option.none)
  (Effect.logged (mkLogEntry clk "RECEIVED" Option.none sender msg) :: branch.1,
    branch.2.2)

/-- The fixed field-actor address list of `send_status_request`. -/
def field_agents : List String := ["fieldagent1", "fieldagent2"]

/-- The status-update `REQUEST` sent to one field actor. -/
def statusRequestMsg (clk : Clock) (agent_name : String) : Msg :=
  ⟨"", agent_name ++ "@404.city", [("performative", Performative.REQUEST)],
    pyDumps (PyValue.dict [("request", PyValue.str "status_update"),
      ("timestamp", PyValue.str clk.hm)])⟩

/-- The `for agent_name in field_agents:` send loop of
`send_status_request`; a raised `DeliveryError` aborts the loop. -/
def send_status_request_loop (ctx : Ctx) (clk : Clock) :
    List String → Nat → List Effect × Nat × Option PyErr
  | [], k => ([], k, Option.none)
  | a :: rest, k =>
      match attemptSend ctx k clk Option.none a (statusRequestMsg clk a) with
      | (effs, k1, some e) => (effs, k1, some e)
      | (effs, k1, Option.none) =>
          match send_status_request_loop ctx clk rest k1 with
          | (effs2, k2, err2) => (effs ++ effs2, k2, err2)

/-- Model of `send_status_request()`. -/
def send_status_request (ctx : Ctx) (clk : Clock) : List Effect × Nat × Option PyErr :=
  send_status_request_loop ctx clk field_agents 0

/-- One iteration of `CoordinatorAgent.CommunicationBehaviour.run`:
receive at most one message; if one arrived, bump `message_count` and
handle it, otherwise fire `send_status_request` when
`message_count % 3 == 0`. -/
def run (ctx : Ctx) (clk : Clock) (st : CoordState) (inbound : Option Msg) :
    RunResult CoordState :=
  match inbound with
  | some msg =>
      let r := handle_incoming_message ctx clk msg
      ⟨{ st with message_count := st.message_count + 1 }, r.1, r.2⟩
  | Option.none =>
      if st.message_count % 3 == 0 then
        let r := send_status_request ctx clk
        ⟨st, r.1, r.2.2⟩
      else ⟨st, [], Option.none⟩

/-- The loop run over a sequence of iterations (an uncaught exception
ends the behaviour). -/
def runSeq (ctx : Ctx) (clk : Clock) (st : CoordState) :
    List (Option Msg) → List Effect
  | [] => []
  | i :: rest =>
      let r := run ctx clk st i
      match r.err with
      | some _ => r.effects
      | Option.none => r.effects ++ runSeq ctx clk r.state rest

end CoordinatorAgent

namespace FieldAgent

/-- Mutable state of `FieldAgent.CommunicationBehaviour`. -/
structure FieldState where
  cycle_count : Nat
  agent_name : String

/-- A freshly constructed behaviour for `agent_name`. -/
def fieldInit (agent_name : String) : FieldState := ⟨0, agent_name⟩

/-- The status `INFORM` built by `send_status_inform` at cycle `c`. -/
def status_inform_msg (clk : Clock) (agent_name : String) (c : Nat) : Msg :=
  ⟨"", "coordinator@404.city", [("performative", Performative.INFORM)],
    pyDumps (PyValue.dict [("status", PyValue.str "operational"),
      ("agent", PyValue.str agent_name),
      ("location", PyValue.str ("Zone-" ++ toString (c % 10))),
      ("resources", PyValue.str "available"),
      ("timestamp", PyValue.str clk.hm)])⟩

/-- Model of `send_status_inform()`: the status `INFORM`, always addressed to
`coordinator@404.city`. -/
def send_status_inform (ctx : Ctx) (k : Nat) (clk : Clock) (agent_name : String)
    (c : Nat) : List Effect × Nat × Option PyErr :=
  attemptSend ctx k clk (some agent_name) "coordinator" (status_inform_msg clk agent_name c)

/-- The fixed disaster-category list of `report_disaster`. -/
def disasters : List String := ["Fire", "Flood", "Earthquake", "Building Collapse"]

/-- The disaster `INFORM` built by `report_disaster` at cycle `c`:
`disaster_detected = disasters[c % len(disasters)]`, location
`Zone-(c % 10)`. -/
def disaster_msg (clk : Clock) (c : Nat) : Msg :=
  ⟨"", "coordinator@404.city", [("performative", Performative.INFORM)],
    pyDumps (PyValue.dict [("status", PyValue.str "alert"),
      ("disaster_detected", PyValue.str (disasters.getD (c % disasters.length) "")),
      ("severity", PyValue.str "high"),
      ("location", PyValue.str ("Zone-" ++ toString (c % 10))),
      ("timestamp", PyValue.str clk.hm)])⟩

/-- Model of `report_disaster()`. -/
def report_disaster (ctx : Ctx) (k : Nat) (clk : Clock) (agent_name : String)
    (c : Nat) : List Effect × Nat × Option PyErr :=
  attemptSend ctx k clk (some agent_name) "coordinator" (disaster_msg clk c)

/-- Model of `handle_incoming_message(msg)` of the field agent: log the
reception, parse the body, and answer `REQUEST` messages;
`content.get("request")` on a non-dict payload of a `REQUEST` raises
`AttributeError`. -/
def handle_incoming_message (ctx : Ctx) (clk : Clock) (agent_name : String) (c : Nat)
    (msg : Msg) : List Effect × Nat × Option PyErr :=
  let performative := msgPerf msg
  let sender := localPart msg.sender
  let branch : List Effect × Nat × Option PyErr :=
    if performative == Performative.REQUEST then
      match parsePayload msg.body with
      | PyValue.dict d =>
          let request_type := dictGetNone d "request"
          if pyEqStr request_type "status_update" then
            send_status_inform ctx 0 clk agent_name c
          else if pyEqStr request_type "deploy_rescue_team" then
            attemptSend ctx 0 clk (some agent_name) sender
              ⟨"", msg.sender, [("performative", Performative.AGREE)],
                pyDumps (PyValue.dict [("agreed_action", PyValue.str "deploy_rescue_team"),
                  ("location", dictGetNone d "location"),
                  ("eta", PyValue.str "5 minutes"),
                  ("timestamp", PyValue.str clk.hm)])⟩
          else ([], 0, Option.none)
      | _ => ([], 0, some PyErr.attributeError)
    else ([], 0, Option.none)
  (Effect.logged (mkLogEntry clk "RECEIVED" (some agent_name) sender msg) :: branch.1,
    branch.2.1, branch.2.2)

/-- One iteration of `FieldAgent.CommunicationBehaviour.run`: increment
`cycle_count`, handle the inbound message if any, then fire the status
trigger (`cycle_count % 4 == 0`) and the disaster trigger
(`cycle_count % 5 == 0`); an uncaught exception aborts the iteration. -/
def run (ctx : Ctx) (clk : Clock) (st : FieldState) (inbound : Option Msg) :
    RunResult FieldState :=
  let c := st.cycle_count + 1
  let st' : FieldState := ⟨c, st.agent_name⟩
  let h : List Effect × Nat × Option PyErr :=
    match inbound with
    | some msg => handle_incoming_message ctx clk st.agent_name c msg
    | Option.none => ([], 0, Option.none)
  match h with
  | (e1, _, some err) => ⟨st', e1, some err⟩
  | (e1, k1, Option.none) =>
      let s : List Effect × Nat × Option PyErr :=
        if c % 4 == 0 then send_status_inform ctx k1 clk st.agent_name c
        else ([], k1, Option.none)
      match s with
      | (e2, _, some err) => ⟨st', e1 ++ e2, some err⟩
      | (e2, k2, Option.none) =>
          let dz : List Effect × Nat × Option PyErr :=
            if c % 5 == 0 then report_disaster ctx k2 clk st.agent_name c
            else ([], k2, Option.none)
          ⟨st', e1 ++ e2 ++ dz.1, dz.2.2⟩

/-- The loop run over a sequence of iterations. -/
def runSeq (ctx : Ctx) (clk : Clock) (st : FieldState) :
    List (Option Msg) → List Effect
  | [] => []
  | i :: rest =>
      let r := run ctx clk st i
      match r.err with
      | some _ => r.effects
      | Option.none => r.effects ++ runSeq ctx clk r.state rest

end FieldAgent

/-- The bytes appended to the log file by a trace of effects. -/
def logBytes (effs : List Effect) : String :=
  effs.foldl (fun acc e => match e with
    | Effect.logged l => acc ++ renderLogEntry l
    | Effect.sent _ => acc) ""

/-- Count of `RECEIVED`-direction log entries in a trace. -/
def countReceivedLogs (effs : List Effect) : Nat :=
  effs.countP (fun e => match e with
    | Effect.logged l => l.direction == "RECEIVED"
    | _ => false)

/-- Count of sent messages satisfying `f`. -/
def countSentP (f : Msg → Bool) (effs : List Effect) : Nat :=
  effs.countP (fun e => match e with
    | Effect.sent m => f m
    | _ => false)

/-- Is the message an `INFORM`? -/
def isInformMsg (m : Msg) : Bool := msgPerf m == Performative.INFORM

/-- Is the message an `AGREE`? -/
def isAgreeMsg (m : Msg) : Bool := msgPerf m == Performative.AGREE

/-- Is the message a `REQUEST`? -/
def isRequestMsg (m : Msg) : Bool := msgPerf m == Performative.REQUEST

/-- Logging discipline of a trace: every send is immediately followed by
its `SENT` log entry (same body and performative), and no `SENT` entry
appears except right after its send. -/
def sentPaired : List Effect → Bool
  | [] => true
  | Effect.sent m :: Effect.logged l :: rest =>
      (l.direction == "SENT") && (l.body == m.body) &&
        (l.performative == msgPerf m) && sentPaired rest
  | Effect.sent _ :: _ => false
  | Effect.logged l :: rest => (!(l.direction == "SENT")) && sentPaired rest

/-- Does this inbound message take the field agent's `status_update`
response path? -/
def triggersStatusUpdate : Option Msg → Bool
  | some m =>
      (msgPerf m == Performative.REQUEST) &&
        (match parsePayload m.body with
         | PyValue.dict d => pyEqStr (dictGetNone d "request") "status_update"
         | _ => false)
  | Option.none => false

/-- A sample fixed clock for concrete runs. -/
def clk0 : Clock := ⟨"2025-01-01 10:00:00", "10:00:00"⟩

/- Shared helper lemmas about effect traces. -/

/-- Splitting `countReceivedLogs` over concatenation. -/
theorem countReceivedLogs_append (a b : List Effect) :
    countReceivedLogs (a ++ b) = countReceivedLogs a + countReceivedLogs b := by
  unfold countReceivedLogs
  exact List.countP_append _ _ _

/-- An `attemptSend` never produces a `RECEIVED` log entry. -/
theorem countReceivedLogs_attemptSend (ctx : Ctx) (k : Nat) (clk : Clock)
    (an : Option String) (party : String) (m : Msg) :
    countReceivedLogs (attemptSend ctx k clk an party m).1 = 0 := by
  unfold attemptSend countReceivedLogs mkLogEntry
  by_cases h : ctx.deliver k <;> simp [h, List.countP, List.countP.go]

/-- The pairing predicate composes over concatenation. -/
theorem sentPaired_append : ∀ a b : List Effect,
    sentPaired a = true → sentPaired b = true → sentPaired (a ++ b) = true
  | [], _, _, hb => hb
  | Effect.sent m :: Effect.logged l :: rest, b, ha, hb => by
      rw [sentPaired] at ha
      simp only [Bool.and_eq_true] at ha
      rw [List.cons_append, List.cons_append, sentPaired]
      simp only [Bool.and_eq_true]
      exact ⟨⟨⟨ha.1.1.1, ha.1.1.2⟩, ha.1.2⟩, sentPaired_append rest b ha.2 hb⟩
  | Effect.sent m :: [], _, ha, _ => by simp [sentPaired] at ha
  | Effect.sent m :: Effect.sent m' :: rest, _, ha, _ => by simp [sentPaired] at ha
  | Effect.logged l :: rest, b, ha, hb => by
      rw [sentPaired] at ha
      simp only [Bool.and_eq_true] at ha
      rw [List.cons_append, sentPaired]
      simp only [Bool.and_eq_true]
      exact ⟨ha.1, sentPaired_append rest b ha.2 hb⟩

/-- An `attemptSend` chunk satisfies the pairing predicate. -/
theorem sentPaired_attemptSend (ctx : Ctx) (k : Nat) (clk : Clock)
    (an : Option String) (party : String) (m : Msg) :
    sentPaired (attemptSend ctx k clk an party m).1 = true := by
  unfold attemptSend
  by_cases h : ctx.deliver k <;> simp [h, sentPaired, mkLogEntry]

/- C3. -/

/-- C3 counterexample: the raw payload `"5"` parses successfully to the
integer 5, so message handling proceeds with a parse result that is not
a mapping; the claim that handling always proceeds with some payload
mapping fails on this input. -/
theorem c3_counterexample :
    parsePayload "5" = PyValue.int 5 ∧ isDict (parsePayload "5") = false :=
  ⟨rfl, rfl⟩

/-- C3 (amended): payload parsing never propagates an error — the bare
`except:` turns every structured-parse failure into the fallback
mapping — and for every raw payload string P that fails structured
parsing, the parse result is exactly the mapping `{"text": P}`.  When P
is a valid non-object JSON document, however, handling proceeds with the
parsed (non-mapping) value. -/
theorem c3_parse_fallback (P : String) (h : json_loads P = Option.none) :
    parsePayload P = PyValue.dict [("text", PyValue.str P)] := by
  unfold parsePayload
  rw [h]

/-- C3 witness: a concrete unparseable payload takes the fallback. -/
theorem c3_witness :
    json_loads "status update please" = Option.none ∧
      parsePayload "status update please" =
        PyValue.dict [("text", PyValue.str "status update please")] :=
  ⟨rfl, c3_parse_fallback "status update please" rfl⟩

/- C1. -/

/-- C1 counterexample: iteration 1 of a freshly constructed coordinator
(message_count = 0) has no inbound message and is not a 3rd loop
iteration, yet the proactive trigger fires and a status-update REQUEST
is sent to both field actors: the trigger tests `message_count % 3`
(count of received messages), not the loop iteration number. -/
theorem c1_counterexample :
    (1 : Nat) % 3 ≠ 0 ∧
      countSentP isRequestMsg
        (CoordinatorAgent.run okCtx clk0 CoordinatorAgent.coordInit Option.none).effects = 2 :=
  ⟨by decide, by rfl⟩

/-- C1 (amended): on every coordinator loop iteration with no inbound
message, the proactive trigger fires exactly when the number of messages
received so far (`message_count`, initially 0) is divisible by 3, and
then one status-update REQUEST is sent to each of the two known field
actors, each immediately logged; on other no-message iterations nothing
is sent. -/
theorem c1_trigger_by_message_count (st : CoordinatorAgent.CoordState) (clk : Clock) :
    (CoordinatorAgent.run okCtx clk st Option.none).effects =
      if st.message_count % 3 = 0 then
        [Effect.sent (CoordinatorAgent.statusRequestMsg clk "fieldagent1"),
         Effect.logged (mkLogEntry clk "SENT" Option.none "fieldagent1"
           (CoordinatorAgent.statusRequestMsg clk "fieldagent1")),
         Effect.sent (CoordinatorAgent.statusRequestMsg clk "fieldagent2"),
         Effect.logged (mkLogEntry clk "SENT" Option.none "fieldagent2"
           (CoordinatorAgent.statusRequestMsg clk "fieldagent2"))]
      else [] := by
  by_cases h : st.message_count % 3 = 0 <;>
    simp [CoordinatorAgent.run, h, CoordinatorAgent.send_status_request,
      CoordinatorAgent.send_status_request_loop, CoordinatorAgent.field_agents,
      attemptSend, okCtx]

/- C4. -/

/-- C4 counterexample: a freshly constructed coordinator iteration with
no inbound message and a failing transport: the DeliveryError raised by
the first send is not caught by the loop — it escapes the iteration —
and no log entry about the failure (or anything else) is written,
contradicting the claim that the loop catches, logs and continues. -/
theorem c4_counterexample :
    (CoordinatorAgent.run failCtx clk0 CoordinatorAgent.coordInit Option.none).err =
        some PyErr.deliveryError ∧
      (CoordinatorAgent.run failCtx clk0 CoordinatorAgent.coordInit Option.none).effects = [] :=
  ⟨rfl, rfl⟩

/-- C4 (amended): the loop bodies contain no exception handling: a
DeliveryError raised by a send escapes the `run` iteration uncaught,
nothing about the failure is logged, and the remainder of the
iteration's work is skipped (the coordinator's second status request,
the field agent's disaster report). -/
theorem c4_error_escapes (st : CoordinatorAgent.CoordState) (fst : FieldAgent.FieldState)
    (clk : Clock) (h : st.message_count % 3 = 0) (h4 : (fst.cycle_count + 1) % 4 = 0) :
    CoordinatorAgent.run failCtx clk st Option.none =
        ⟨st, [], some PyErr.deliveryError⟩ ∧
      FieldAgent.run failCtx clk fst Option.none =
        ⟨⟨fst.cycle_count + 1, fst.agent_name⟩, [], some PyErr.deliveryError⟩ := by
  constructor
  · simp [CoordinatorAgent.run, h, CoordinatorAgent.send_status_request,
      CoordinatorAgent.send_status_request_loop, CoordinatorAgent.field_agents,
      attemptSend, failCtx]
  · simp [FieldAgent.run, h4, FieldAgent.send_status_inform, attemptSend, failCtx]

/-- C4 witness: concrete instance of the amended statement. -/
theorem c4_witness :
    CoordinatorAgent.run failCtx clk0 CoordinatorAgent.coordInit Option.none =
        ⟨CoordinatorAgent.coordInit, [], some PyErr.deliveryError⟩ ∧
      FieldAgent.run failCtx clk0 ⟨3, "FieldAgent1"⟩ Option.none =
        ⟨⟨4, "FieldAgent1"⟩, [], some PyErr.deliveryError⟩ :=
  c4_error_escapes CoordinatorAgent.coordInit ⟨3, "FieldAgent1"⟩ clk0 (by decide) (by decide)

/- C2. -/

/-- C2: for every INFORM received by the coordinator whose parsed
payload is a mapping containing the key `disaster_detected`, the
iteration's trace is exactly the RECEIVED log followed by one sent
REQUEST — payload `request=deploy_rescue_team`, location equal to the
reported location (or "unknown" when the key is absent), and
`priority=high` — and its SENT log; the REQUEST is always addressed to
the hardcoded `fieldagent1@404.city`, regardless of the reported
location, and it is the only message sent this iteration. -/
theorem c2_disaster_dispatch (st : CoordinatorAgent.CoordState) (clk : Clock) (msg : Msg)
    (d : List (String × PyValue))
    (hperf : msgPerf msg = "inform")
    (hparse : parsePayload msg.body = PyValue.dict d)
    (hkey : hasKey d "disaster_detected" = true) :
    (CoordinatorAgent.run okCtx clk st (some msg)).effects =
      [Effect.logged (mkLogEntry clk "RECEIVED" Option.none (localPart msg.sender) msg),
       Effect.sent ⟨"", "fieldagent1@404.city", [("performative", "request")],
         pyDumps (PyValue.dict [("request", PyValue.str "deploy_rescue_team"),
           ("location", dictGetD d "location" (PyValue.str "unknown")),
           ("priority", PyValue.str "high"), ("timestamp", PyValue.str clk.hm)])⟩,
       Effect.logged (mkLogEntry clk "SENT" Option.none "fieldagent1"
         ⟨"", "fieldagent1@404.city", [("performative", "request")],
           pyDumps (PyValue.dict [("request", PyValue.str "deploy_rescue_team"),
             ("location", dictGetD d "location" (PyValue.str "unknown")),
             ("priority", PyValue.str "high"), ("timestamp", PyValue.str clk.hm)])⟩)] ∧
      countSentP (fun _ => true) (CoordinatorAgent.run okCtx clk st (some msg)).effects = 1 := by
  have h1 : (CoordinatorAgent.run okCtx clk st (some msg)).effects =
      [Effect.logged (mkLogEntry clk "RECEIVED" Option.none (localPart msg.sender) msg),
       Effect.sent ⟨"", "fieldagent1@404.city", [("performative", "request")],
         pyDumps (PyValue.dict [("request", PyValue.str "deploy_rescue_team"),
           ("location", dictGetD d "location" (PyValue.str "unknown")),
           ("priority", PyValue.str "high"), ("timestamp", PyValue.str clk.hm)])⟩,
       Effect.logged (mkLogEntry clk "SENT" Option.none "fieldagent1"
         ⟨"", "fieldagent1@404.city", [("performative", "request")],
           pyDumps (PyValue.dict [("request", PyValue.str "deploy_rescue_team"),
             ("location", dictGetD d "location" (PyValue.str "unknown")),
             ("priority", PyValue.str "high"), ("timestamp", PyValue.str clk.hm)])⟩)] := by
    simp [CoordinatorAgent.run, CoordinatorAgent.handle_incoming_message, hperf,
      Performative.INFORM, Performative.REQUEST, hparse, CoordinatorAgent.handle_inform,
      hkey, CoordinatorAgent.dispatch_rescue_team, attemptSend, okCtx, mkLogEntry]
  refine ⟨h1, ?_⟩
  rw [h1]
  simp [countSentP, List.countP, List.countP.go]

/-- C2 witness: a Fire at Zone-3 reported (by fieldagent2) is dispatched
in one REQUEST to fieldagent1 carrying the reported location. -/
theorem c2_witness :
    (CoordinatorAgent.run okCtx clk0 CoordinatorAgent.coordInit
        (some ⟨"fieldagent2@404.city", "coordinator@404.city", [("performative", "inform")],
          "\x7b\"disaster_detected\": \"Fire\", \"location\": \"Zone-3\"\x7d"⟩)).effects =
      [Effect.logged ⟨"2025-01-01 10:00:00", "RECEIVED", "inform", Option.none, "fieldagent2",
         "\x7b\"disaster_detected\": \"Fire\", \"location\": \"Zone-3\"\x7d"⟩,
       Effect.sent ⟨"", "fieldagent1@404.city", [("performative", "request")],
         "\x7b\"request\": \"deploy_rescue_team\", \"location\": \"Zone-3\", \"priority\": \"high\", \"timestamp\": \"10:00:00\"\x7d"⟩,
       Effect.logged ⟨"2025-01-01 10:00:00", "SENT", "request", Option.none, "fieldagent1",
         "\x7b\"request\": \"deploy_rescue_team\", \"location\": \"Zone-3\", \"priority\": \"high\", \"timestamp\": \"10:00:00\"\x7d"⟩] ∧
      countSentP (fun _ => true)
        (CoordinatorAgent.run okCtx clk0 CoordinatorAgent.coordInit
          (some ⟨"fieldagent2@404.city", "coordinator@404.city", [("performative", "inform")],
            "\x7b\"disaster_detected\": \"Fire\", \"location\": \"Zone-3\"\x7d"⟩)).effects = 1 :=
  c2_disaster_dispatch CoordinatorAgent.coordInit clk0
    ⟨"fieldagent2@404.city", "coordinator@404.city", [("performative", "inform")],
      "\x7b\"disaster_detected\": \"Fire\", \"location\": \"Zone-3\"\x7d"⟩
    [("disaster_detected", PyValue.str "Fire"), ("location", PyValue.str "Zone-3")]
    rfl rfl rfl

/- C7. -/

/-- C7 counterexample: a status_update REQUEST from the address
`agent@example.org` is answered by exactly one send, addressed to
`agent@404.city` — the sender's local part with the domain rewritten to
`404.city` — and no message is addressed to the requester's actual
address, refuting "exactly one AGREE addressed to A" for a general
address A. -/
theorem c7_counterexample :
    countSentP (fun m => m.toAddr == "agent@404.city")
        (CoordinatorAgent.run okCtx clk0 CoordinatorAgent.coordInit
          (some ⟨"agent@example.org", "coordinator@404.city", [("performative", "request")],
            "\x7b\"request\": \"status_update\"\x7d"⟩)).effects = 1 ∧
      countSentP (fun m => m.toAddr == "agent@example.org")
        (CoordinatorAgent.run okCtx clk0 CoordinatorAgent.coordInit
          (some ⟨"agent@example.org", "coordinator@404.city", [("performative", "request")],
            "\x7b\"request\": \"status_update\"\x7d"⟩)).effects = 0 :=
  ⟨rfl, rfl⟩

/-- C7 (amended): for every REQUEST received by the coordinator whose
parsed payload is a mapping with requested action R, the coordinator
unconditionally emits exactly one AGREE — it never refuses — whose
payload has `agreed_action` R and a timestamp.  The AGREE is addressed
to `localPart(sender) + "@404.city"`, which equals the requester's
address exactly when that address has the form `name@404.city`. -/
theorem c7_agree_response (st : CoordinatorAgent.CoordState) (clk : Clock) (msg : Msg)
    (d : List (String × PyValue)) (R : PyValue)
    (hperf : msgPerf msg = "request")
    (hparse : parsePayload msg.body = PyValue.dict d)
    (hreq : dictGet? d "request" = some R) :
    (CoordinatorAgent.run okCtx clk st (some msg)).effects =
      [Effect.logged (mkLogEntry clk "RECEIVED" Option.none (localPart msg.sender) msg),
       Effect.sent ⟨"", localPart msg.sender ++ "@404.city", [("performative", "agree")],
         pyDumps (PyValue.dict [("agreed_action", R), ("timestamp", PyValue.str clk.hm)])⟩,
       Effect.logged (mkLogEntry clk "SENT" Option.none (localPart msg.sender)
         ⟨"", localPart msg.sender ++ "@404.city", [("performative", "agree")],
           pyDumps (PyValue.dict [("agreed_action", R), ("timestamp", PyValue.str clk.hm)])⟩)] ∧
      countSentP isAgreeMsg (CoordinatorAgent.run okCtx clk st (some msg)).effects = 1 := by
  have hR : dictGetNone d "request" = R := by
    unfold dictGetNone dictGetD
    rw [hreq]
  have h1 : (CoordinatorAgent.run okCtx clk st (some msg)).effects =
      [Effect.logged (mkLogEntry clk "RECEIVED" Option.none (localPart msg.sender) msg),
       Effect.sent ⟨"", localPart msg.sender ++ "@404.city", [("performative", "agree")],
         pyDumps (PyValue.dict [("agreed_action", R), ("timestamp", PyValue.str clk.hm)])⟩,
       Effect.logged (mkLogEntry clk "SENT" Option.none (localPart msg.sender)
         ⟨"", localPart msg.sender ++ "@404.city", [("performative", "agree")],
           pyDumps (PyValue.dict [("agreed_action", R), ("timestamp", PyValue.str clk.hm)])⟩)] := by
    simp [CoordinatorAgent.run, CoordinatorAgent.handle_incoming_message, hperf,
      Performative.INFORM, Performative.REQUEST, Performative.AGREE, hparse,
      CoordinatorAgent.handle_request, hR, attemptSend, okCtx, mkLogEntry]
  refine ⟨h1, ?_⟩
  rw [h1]
  simp [countSentP, List.countP, List.countP.go, isAgreeMsg, msgPerf, metaGetD,
    Performative.AGREE]

/-- C7 witness: a status_update REQUEST from `fieldagent1@404.city`
(an in-system address, where the reconstruction equals the sender)
gets exactly one AGREE with `agreed_action=status_update`. -/
theorem c7_witness :
    (CoordinatorAgent.run okCtx clk0 CoordinatorAgent.coordInit
        (some ⟨"fieldagent1@404.city", "coordinator@404.city", [("performative", "request")],
          "\x7b\"request\": \"status_update\"\x7d"⟩)).effects =
      [Effect.logged ⟨"2025-01-01 10:00:00", "RECEIVED", "request", Option.none, "fieldagent1",
         "\x7b\"request\": \"status_update\"\x7d"⟩,
       Effect.sent ⟨"", "fieldagent1@404.city", [("performative", "agree")],
         "\x7b\"agreed_action\": \"status_update\", \"timestamp\": \"10:00:00\"\x7d"⟩,
       Effect.logged ⟨"2025-01-01 10:00:00", "SENT", "agree", Option.none, "fieldagent1",
         "\x7b\"agreed_action\": \"status_update\", \"timestamp\": \"10:00:00\"\x7d"⟩] ∧
      countSentP isAgreeMsg
        (CoordinatorAgent.run okCtx clk0 CoordinatorAgent.coordInit
          (some ⟨"fieldagent1@404.city", "coordinator@404.city", [("performative", "request")],
            "\x7b\"request\": \"status_update\"\x7d"⟩)).effects = 1 :=
  c7_agree_response CoordinatorAgent.coordInit clk0
    ⟨"fieldagent1@404.city", "coordinator@404.city", [("performative", "request")],
      "\x7b\"request\": \"status_update\"\x7d"⟩
    [("request", PyValue.str "status_update")] (PyValue.str "status_update") rfl rfl rfl

/- C6. -/

/-- C6: for every REQUEST received by a field agent whose parsed payload
is a mapping requesting `deploy_rescue_team` with some location L, the
iteration sends exactly one AGREE; its payload carries the location L
and `eta = "5 minutes"`, and it is addressed to the original message's
sender. -/
theorem c6_deploy_agree (fst : FieldAgent.FieldState) (clk : Clock) (msg : Msg)
    (d : List (String × PyValue)) (L : PyValue)
    (hperf : msgPerf msg = "request")
    (hparse : parsePayload msg.body = PyValue.dict d)
    (hreq : dictGetNone d "request" = PyValue.str "deploy_rescue_team")
    (hloc : dictGet? d "location" = some L) :
    countSentP isAgreeMsg (FieldAgent.run okCtx clk fst (some msg)).effects = 1 ∧
      Effect.sent ⟨"", msg.sender, [("performative", "agree")],
          pyDumps (PyValue.dict [("agreed_action", PyValue.str "deploy_rescue_team"),
            ("location", L), ("eta", PyValue.str "5 minutes"),
            ("timestamp", PyValue.str clk.hm)])⟩ ∈
        (FieldAgent.run okCtx clk fst (some msg)).effects := by
  have hL : dictGetNone d "location" = L := by
    unfold dictGetNone dictGetD
    rw [hloc]
  have hhandler : FieldAgent.handle_incoming_message okCtx clk fst.agent_name
      (fst.cycle_count + 1) msg =
      ([Effect.logged (mkLogEntry clk "RECEIVED" (some fst.agent_name) (localPart msg.sender) msg),
        Effect.sent ⟨"", msg.sender, [("performative", "agree")],
          pyDumps (PyValue.dict [("agreed_action", PyValue.str "deploy_rescue_team"),
            ("location", L), ("eta", PyValue.str "5 minutes"),
            ("timestamp", PyValue.str clk.hm)])⟩,
        Effect.logged (mkLogEntry clk "SENT" (some fst.agent_name) (localPart msg.sender)
          ⟨"", msg.sender, [("performative", "agree")],
            pyDumps (PyValue.dict [("agreed_action", PyValue.str "deploy_rescue_team"),
              ("location", L), ("eta", PyValue.str "5 minutes"),
              ("timestamp", PyValue.str clk.hm)])⟩)], 1, Option.none) := by
    simp [FieldAgent.handle_incoming_message, hperf, Performative.REQUEST, hparse, hreq, hL,
      pyEqStr, Performative.AGREE, attemptSend, okCtx, mkLogEntry]
  constructor
  · simp only [FieldAgent.run, hhandler]
    by_cases h4 : (fst.cycle_count + 1) % 4 = 0 <;>
      by_cases h5 : (fst.cycle_count + 1) % 5 = 0 <;>
        simp [h4, h5, FieldAgent.send_status_inform, FieldAgent.report_disaster,
          attemptSend, okCtx, countSentP, List.countP_append, List.countP_cons,
          isAgreeMsg, msgPerf, metaGetD, List.find?, Performative.AGREE,
          Performative.INFORM, FieldAgent.status_inform_msg, FieldAgent.disaster_msg,
          mkLogEntry]
  · simp only [FieldAgent.run, hhandler]
    by_cases h4 : (fst.cycle_count + 1) % 4 = 0 <;>
      by_cases h5 : (fst.cycle_count + 1) % 5 = 0 <;>
        simp [h4, h5, FieldAgent.send_status_inform, FieldAgent.report_disaster,
          attemptSend, okCtx, List.mem_append, List.mem_cons]

/-- C6 witness: a deploy request for Zone-7 from the coordinator is
answered by one AGREE, to the coordinator's address, with the requested
location and the fixed ETA. -/
theorem c6_witness :
    countSentP isAgreeMsg
        (FieldAgent.run okCtx clk0 (FieldAgent.fieldInit "FieldAgent1")
          (some ⟨"coordinator@404.city", "fieldagent1@404.city", [("performative", "request")],
            "\x7b\"request\": \"deploy_rescue_team\", \"location\": \"Zone-7\"\x7d"⟩)).effects = 1 ∧
      Effect.sent ⟨"", "coordinator@404.city", [("performative", "agree")],
          "\x7b\"agreed_action\": \"deploy_rescue_team\", \"location\": \"Zone-7\", \"eta\": \"5 minutes\", \"timestamp\": \"10:00:00\"\x7d"⟩ ∈
        (FieldAgent.run okCtx clk0 (FieldAgent.fieldInit "FieldAgent1")
          (some ⟨"coordinator@404.city", "fieldagent1@404.city", [("performative", "request")],
            "\x7b\"request\": \"deploy_rescue_team\", \"location\": \"Zone-7\"\x7d"⟩)).effects :=
  c6_deploy_agree (FieldAgent.fieldInit "FieldAgent1") clk0
    ⟨"coordinator@404.city", "fieldagent1@404.city", [("performative", "request")],
      "\x7b\"request\": \"deploy_rescue_team\", \"location\": \"Zone-7\"\x7d"⟩
    [("request", PyValue.str "deploy_rescue_team"), ("location", PyValue.str "Zone-7")]
    (PyValue.str "Zone-7") rfl rfl rfl rfl

/- C10. -/

/-- C10: for every status_update REQUEST received by a field agent, the
status INFORM it produces is sent, and every INFORM sent during the
iteration is addressed to the fixed `coordinator@404.city` — never to
the requesting message's sender, whoever that is. -/
theorem c10_status_inform_to_coordinator (fst : FieldAgent.FieldState) (clk : Clock)
    (msg : Msg) (d : List (String × PyValue))
    (hperf : msgPerf msg = "request")
    (hparse : parsePayload msg.body = PyValue.dict d)
    (hreq : dictGetNone d "request" = PyValue.str "status_update") :
    (Effect.sent (FieldAgent.status_inform_msg clk fst.agent_name (fst.cycle_count + 1)) ∈
        (FieldAgent.run okCtx clk fst (some msg)).effects) ∧
      (FieldAgent.status_inform_msg clk fst.agent_name (fst.cycle_count + 1)).toAddr =
        "coordinator@404.city" ∧
      ∀ m : Msg, Effect.sent m ∈ (FieldAgent.run okCtx clk fst (some msg)).effects →
        isInformMsg m = true → m.toAddr = "coordinator@404.city" := by
  have hhandler : FieldAgent.handle_incoming_message okCtx clk fst.agent_name
      (fst.cycle_count + 1) msg =
      ([Effect.logged (mkLogEntry clk "RECEIVED" (some fst.agent_name) (localPart msg.sender) msg),
        Effect.sent (FieldAgent.status_inform_msg clk fst.agent_name (fst.cycle_count + 1)),
        Effect.logged (mkLogEntry clk "SENT" (some fst.agent_name) "coordinator"
          (FieldAgent.status_inform_msg clk fst.agent_name (fst.cycle_count + 1)))],
        1, Option.none) := by
    simp [FieldAgent.handle_incoming_message, hperf, Performative.REQUEST, hparse, hreq,
      pyEqStr, FieldAgent.send_status_inform, attemptSend, okCtx]
  refine ⟨?_, rfl, ?_⟩
  · simp only [FieldAgent.run, hhandler]
    by_cases h4 : (fst.cycle_count + 1) % 4 = 0 <;>
      by_cases h5 : (fst.cycle_count + 1) % 5 = 0 <;>
        simp [h4, h5, FieldAgent.send_status_inform, FieldAgent.report_disaster,
          attemptSend, okCtx, List.mem_append, List.mem_cons]
  · simp only [FieldAgent.run, hhandler]
    by_cases h4 : (fst.cycle_count + 1) % 4 = 0 <;>
      by_cases h5 : (fst.cycle_count + 1) % 5 = 0 <;>
        (intro m hm _
         simp [h4, h5, FieldAgent.send_status_inform, FieldAgent.report_disaster,
           attemptSend, okCtx, List.mem_append, List.mem_cons] at hm
         obtain rfl | rfl | rfl := hm <;> rfl)

/-- C10 witness: a status_update REQUEST from an arbitrary non-system
address still yields a status INFORM addressed to the coordinator. -/
theorem c10_witness :
    (Effect.sent (FieldAgent.status_inform_msg clk0 "FieldAgent1" 1) ∈
        (FieldAgent.run okCtx clk0 (FieldAgent.fieldInit "FieldAgent1")
          (some ⟨"intruder@evil.org", "fieldagent1@404.city", [("performative", "request")],
            "\x7b\"request\": \"status_update\"\x7d"⟩)).effects) ∧
      (FieldAgent.status_inform_msg clk0 "FieldAgent1" 1).toAddr = "coordinator@404.city" ∧
      ∀ m : Msg, Effect.sent m ∈
          (FieldAgent.run okCtx clk0 (FieldAgent.fieldInit "FieldAgent1")
            (some ⟨"intruder@evil.org", "fieldagent1@404.city", [("performative", "request")],
              "\x7b\"request\": \"status_update\"\x7d"⟩)).effects →
        isInformMsg m = true → m.toAddr = "coordinator@404.city" :=
  c10_status_inform_to_coordinator (FieldAgent.fieldInit "FieldAgent1") clk0
    ⟨"intruder@evil.org", "fieldagent1@404.city", [("performative", "request")],
      "\x7b\"request\": \"status_update\"\x7d"⟩
    [("request", PyValue.str "status_update")] rfl rfl rfl

/- C5. -/

/-- Helper: when the inbound message does not take the status_update
response path, the field agent's handler sends no INFORM (its only
possible send is the deploy AGREE). -/
theorem fieldHandler_no_inform (ctx : Ctx) (clk : Clock) (an : String) (c : Nat) (msg : Msg)
    (hns : triggersStatusUpdate (some msg) = false) :
    ∀ m : Msg, Effect.sent m ∈ (FieldAgent.handle_incoming_message ctx clk an c msg).1 →
      isInformMsg m = false := by
  intro m hm
  rw [triggersStatusUpdate] at hns
  simp only [FieldAgent.handle_incoming_message, List.mem_cons] at hm
  rcases hm with h | hm
  · exact absurd h (by simp)
  · split at hm
    · split at hm
      · next d heq =>
          rw [heq] at hns
          split at hm
          · next hcond =>
              simp_all
          · split at hm
            · unfold attemptSend at hm
              split at hm
              · simp only [List.mem_cons, List.not_mem_nil, or_false] at hm
                rcases hm with h | h
                · obtain rfl : m = _ := by exact Effect.sent.inj h
                  rfl
                · exact absurd h (by simp)
              · simp at hm
            · simp at hm
      · simp at hm
    · simp at hm

/-- C5 counterexample: at cycle 1 — not a multiple of 4 — an inbound
status_update REQUEST makes the field agent send a status INFORM, so "a
status INFORM is sent exactly when cycleCount is a multiple of 4" fails
when quantified over every loop iteration. -/
theorem c5_counterexample :
    (1 : Nat) % 4 ≠ 0 ∧
      Effect.sent (FieldAgent.status_inform_msg clk0 "FieldAgent1" 1) ∈
        (FieldAgent.run okCtx clk0 (FieldAgent.fieldInit "FieldAgent1")
          (some ⟨"coordinator@404.city", "fieldagent1@404.city", [("performative", "request")],
            "\x7b\"request\": \"status_update\"\x7d"⟩)).effects :=
  ⟨by decide, by decide⟩

/-- C5 (amended): on every field-agent iteration that completes without
an exception and whose inbound message (if any) does not take the
status_update response path, the trace is the handler part — which
sends no INFORM at all — followed by exactly the proactive sends: a
status INFORM, sent then logged, present exactly when the incremented
cycle count c is a multiple of 4, then a disaster INFORM with
`disaster_detected = disasters[c mod 4]` and location `Zone-(c mod 10)`,
sent then logged, present exactly when c is a multiple of 5; when both
conditions hold (e.g. c = 20) both are sent, each logged separately.
(The unrestricted claim fails because an inbound status_update REQUEST
also produces a status INFORM; see the counterexample.) -/
theorem c5_proactive_triggers (fst : FieldAgent.FieldState) (clk : Clock)
    (inbound : Option Msg)
    (hns : triggersStatusUpdate inbound = false)
    (herr : (FieldAgent.run okCtx clk fst inbound).err = Option.none) :
    ∃ hEffs : List Effect,
      (∀ m : Msg, Effect.sent m ∈ hEffs → isInformMsg m = false) ∧
      (FieldAgent.run okCtx clk fst inbound).effects =
        hEffs ++
          (if (fst.cycle_count + 1) % 4 = 0 then
            [Effect.sent (FieldAgent.status_inform_msg clk fst.agent_name (fst.cycle_count + 1)),
             Effect.logged (mkLogEntry clk "SENT" (some fst.agent_name) "coordinator"
               (FieldAgent.status_inform_msg clk fst.agent_name (fst.cycle_count + 1)))]
           else []) ++
          (if (fst.cycle_count + 1) % 5 = 0 then
            [Effect.sent (FieldAgent.disaster_msg clk (fst.cycle_count + 1)),
             Effect.logged (mkLogEntry clk "SENT" (some fst.agent_name) "coordinator"
               (FieldAgent.disaster_msg clk (fst.cycle_count + 1)))]
           else []) := by
  rcases inbound with _ | msg
  · refine ⟨[], by simp, ?_⟩
    by_cases h4 : (fst.cycle_count + 1) % 4 = 0 <;>
      by_cases h5 : (fst.cycle_count + 1) % 5 = 0 <;>
        simp [FieldAgent.run, h4, h5, FieldAgent.send_status_inform,
          FieldAgent.report_disaster, attemptSend, okCtx]
  · rcases hh : FieldAgent.handle_incoming_message okCtx clk fst.agent_name
        (fst.cycle_count + 1) msg with ⟨e1, k1, err1⟩
    rcases err1 with _ | err
    · refine ⟨e1, ?_, ?_⟩
      · have := fieldHandler_no_inform okCtx clk fst.agent_name (fst.cycle_count + 1) msg hns
        rw [hh] at this
        exact this
      · by_cases h4 : (fst.cycle_count + 1) % 4 = 0 <;>
          by_cases h5 : (fst.cycle_count + 1) % 5 = 0 <;>
            (simp only [FieldAgent.run]
             rw [hh]
             simp [h4, h5, FieldAgent.send_status_inform,
               FieldAgent.report_disaster, attemptSend, okCtx])
    · exfalso
      simp [FieldAgent.run, hh] at herr

/-- C5 witness: a fresh field agent at its 20th iteration (cycle count
20, divisible by both 4 and 5) with no inbound message sends both the
status INFORM and the disaster INFORM, each logged separately. -/
theorem c5_witness :
    ∃ hEffs : List Effect,
      (∀ m : Msg, Effect.sent m ∈ hEffs → isInformMsg m = false) ∧
      (FieldAgent.run okCtx clk0 ⟨19, "FieldAgent1"⟩ Option.none).effects =
        hEffs ++
          (if (19 + 1) % 4 = 0 then
            [Effect.sent (FieldAgent.status_inform_msg clk0 "FieldAgent1" (19 + 1)),
             Effect.logged (mkLogEntry clk0 "SENT" (some "FieldAgent1") "coordinator"
               (FieldAgent.status_inform_msg clk0 "FieldAgent1" (19 + 1)))]
           else []) ++
          (if (19 + 1) % 5 = 0 then
            [Effect.sent (FieldAgent.disaster_msg clk0 (19 + 1)),
             Effect.logged (mkLogEntry clk0 "SENT" (some "FieldAgent1") "coordinator"
               (FieldAgent.disaster_msg clk0 (19 + 1)))]
           else []) :=
  c5_proactive_triggers ⟨19, "FieldAgent1"⟩ clk0 Option.none rfl rfl

/- C8 helper lemmas. -/

/-- The status-request send loop produces no RECEIVED log entries. -/
theorem srLoop_receivedLogs (ctx : Ctx) (clk : Clock) : ∀ (as : List String) (k : Nat),
    countReceivedLogs (CoordinatorAgent.send_status_request_loop ctx clk as k).1 = 0
  | [], _ => by simp [CoordinatorAgent.send_status_request_loop, countReceivedLogs]
  | a :: rest, k => by
      unfold CoordinatorAgent.send_status_request_loop
      rcases hA : attemptSend ctx k clk Option.none a (CoordinatorAgent.statusRequestMsg clk a)
        with ⟨effs, k1, err1⟩
      have hAr : countReceivedLogs effs = 0 := by
        have h := countReceivedLogs_attemptSend ctx k clk Option.none a
          (CoordinatorAgent.statusRequestMsg clk a)
        rw [hA] at h
        exact h
      rcases err1 with _ | e
      · show countReceivedLogs
          (effs ++ (CoordinatorAgent.send_status_request_loop ctx clk rest k1).1) = 0
        rw [countReceivedLogs_append, hAr, srLoop_receivedLogs ctx clk rest k1]
      · show countReceivedLogs effs = 0
        exact hAr

/-- The status-request send loop satisfies the send/log pairing. -/
theorem srLoop_paired (ctx : Ctx) (clk : Clock) : ∀ (as : List String) (k : Nat),
    sentPaired (CoordinatorAgent.send_status_request_loop ctx clk as k).1 = true
  | [], _ => by simp [CoordinatorAgent.send_status_request_loop, sentPaired]
  | a :: rest, k => by
      unfold CoordinatorAgent.send_status_request_loop
      rcases hA : attemptSend ctx k clk Option.none a (CoordinatorAgent.statusRequestMsg clk a)
        with ⟨effs, k1, err1⟩
      have hAp : sentPaired effs = true := by
        have h := sentPaired_attemptSend ctx k clk Option.none a
          (CoordinatorAgent.statusRequestMsg clk a)
        rw [hA] at h
        exact h
      rcases err1 with _ | e
      · show sentPaired
          (effs ++ (CoordinatorAgent.send_status_request_loop ctx clk rest k1).1) = true
        exact sentPaired_append _ _ hAp (srLoop_paired ctx clk rest k1)
      · show sentPaired effs = true
        exact hAp

/-- Pairing of a trace headed by a RECEIVED log entry. -/
theorem sentPaired_cons_received (l : LogEntry) (hl : l.direction = "RECEIVED")
    (rest : List Effect) (h : sentPaired rest = true) :
    sentPaired (Effect.logged l :: rest) = true := by
  rw [sentPaired, hl, h]
  rfl

/-- RECEIVED count of a trace headed by a RECEIVED log entry. -/
theorem countReceivedLogs_cons_received (l : LogEntry) (hl : l.direction = "RECEIVED")
    (rest : List Effect) (h : countReceivedLogs rest = 0) :
    countReceivedLogs (Effect.logged l :: rest) = 1 := by
  unfold countReceivedLogs at h ⊢
  rw [List.countP_cons, h]
  simp [hl]

/-- Helper: `handle_inform` produces a paired trace with no RECEIVED entries. -/
theorem coord_handle_inform_ok (ctx : Ctx) (k : Nat) (clk : Clock) (content : PyValue) :
    sentPaired (CoordinatorAgent.handle_inform ctx k clk content).1 = true ∧
      countReceivedLogs (CoordinatorAgent.handle_inform ctx k clk content).1 = 0 := by
  unfold CoordinatorAgent.handle_inform CoordinatorAgent.dispatch_rescue_team
  constructor <;>
    (split
     · split
       · exact (by first
           | exact sentPaired_attemptSend ctx k clk Option.none "fieldagent1" _
           | exact countReceivedLogs_attemptSend ctx k clk Option.none "fieldagent1" _)
       · simp [sentPaired, countReceivedLogs]
     · simp [sentPaired, countReceivedLogs])

/-- Helper: `handle_request` produces a paired trace with no RECEIVED entries. -/
theorem coord_handle_request_ok (ctx : Ctx) (k : Nat) (clk : Clock) (sender : String)
    (content : PyValue) :
    sentPaired (CoordinatorAgent.handle_request ctx k clk sender content).1 = true ∧
      countReceivedLogs (CoordinatorAgent.handle_request ctx k clk sender content).1 = 0 := by
  unfold CoordinatorAgent.handle_request
  constructor <;>
    (split
     · exact (by first
         | exact sentPaired_attemptSend ctx k clk Option.none sender _
         | exact countReceivedLogs_attemptSend ctx k clk Option.none sender _)
     · simp [sentPaired, countReceivedLogs])

/-- The coordinator's handler trace is paired and holds exactly one
RECEIVED entry. -/
theorem coordHandler_trace_ok (ctx : Ctx) (clk : Clock) (msg : Msg) :
    sentPaired (CoordinatorAgent.handle_incoming_message ctx clk msg).1 = true ∧
      countReceivedLogs (CoordinatorAgent.handle_incoming_message ctx clk msg).1 = 1 := by
  constructor
  · unfold CoordinatorAgent.handle_incoming_message
    apply sentPaired_cons_received _ rfl
    split
    · exact (coord_handle_inform_ok ctx 0 clk _).1
    · split
      · exact (coord_handle_request_ok ctx 0 clk _ _).1
      · split
        · unfold CoordinatorAgent.handle_agree
          split <;> simp [sentPaired]
        · simp [sentPaired]
  · unfold CoordinatorAgent.handle_incoming_message
    apply countReceivedLogs_cons_received _ rfl
    split
    · exact (coord_handle_inform_ok ctx 0 clk _).2
    · split
      · exact (coord_handle_request_ok ctx 0 clk _ _).2
      · split
        · unfold CoordinatorAgent.handle_agree
          split <;> simp [countReceivedLogs]
        · simp [countReceivedLogs]

/-- One coordinator iteration: the trace is paired and holds exactly one
RECEIVED entry when a message arrived, none otherwise. -/
theorem coordRun_trace_ok (ctx : Ctx) (clk : Clock) (st : CoordinatorAgent.CoordState)
    (inbound : Option Msg) :
    sentPaired (CoordinatorAgent.run ctx clk st inbound).effects = true ∧
      countReceivedLogs (CoordinatorAgent.run ctx clk st inbound).effects =
        (if inbound.isSome then 1 else 0) := by
  rcases inbound with _ | msg
  · by_cases h3 : st.message_count % 3 == 0
    · constructor
      · show sentPaired
          (if st.message_count % 3 == 0 then
            (⟨st, (CoordinatorAgent.send_status_request ctx clk).1,
              (CoordinatorAgent.send_status_request ctx clk).2.2⟩ :
                RunResult CoordinatorAgent.CoordState)
           else ⟨st, [], Option.none⟩).effects = true
        rw [if_pos h3]
        exact srLoop_paired ctx clk CoordinatorAgent.field_agents 0
      · show countReceivedLogs
          (if st.message_count % 3 == 0 then
            (⟨st, (CoordinatorAgent.send_status_request ctx clk).1,
              (CoordinatorAgent.send_status_request ctx clk).2.2⟩ :
                RunResult CoordinatorAgent.CoordState)
           else ⟨st, [], Option.none⟩).effects = 0
        rw [if_pos h3]
        exact srLoop_receivedLogs ctx clk CoordinatorAgent.field_agents 0
    · constructor
      · show sentPaired
          (if st.message_count % 3 == 0 then
            (⟨st, (CoordinatorAgent.send_status_request ctx clk).1,
              (CoordinatorAgent.send_status_request ctx clk).2.2⟩ :
                RunResult CoordinatorAgent.CoordState)
           else ⟨st, [], Option.none⟩).effects = true
        rw [if_neg h3]
        rfl
      · show countReceivedLogs
          (if st.message_count % 3 == 0 then
            (⟨st, (CoordinatorAgent.send_status_request ctx clk).1,
              (CoordinatorAgent.send_status_request ctx clk).2.2⟩ :
                RunResult CoordinatorAgent.CoordState)
           else ⟨st, [], Option.none⟩).effects = 0
        rw [if_neg h3]
        rfl
  · exact ⟨(coordHandler_trace_ok ctx clk msg).1, (coordHandler_trace_ok ctx clk msg).2⟩

/-- The field agent's handler trace is paired and holds exactly one
RECEIVED entry. -/
theorem fieldHandler_trace_ok (ctx : Ctx) (clk : Clock) (an : String) (c : Nat) (msg : Msg) :
    sentPaired (FieldAgent.handle_incoming_message ctx clk an c msg).1 = true ∧
      countReceivedLogs (FieldAgent.handle_incoming_message ctx clk an c msg).1 = 1 := by
  constructor
  · unfold FieldAgent.handle_incoming_message
    apply sentPaired_cons_received _ rfl
    split
    · split
      · dsimp only
        split
        · exact sentPaired_attemptSend ctx 0 clk (some an) "coordinator" _
        · split
          · exact sentPaired_attemptSend ctx 0 clk (some an) (localPart msg.sender) _
          · simp [sentPaired]
      · simp [sentPaired]
    · simp [sentPaired]
  · unfold FieldAgent.handle_incoming_message
    apply countReceivedLogs_cons_received _ rfl
    split
    · split
      · dsimp only
        split
        · exact countReceivedLogs_attemptSend ctx 0 clk (some an) "coordinator" _
        · split
          · exact countReceivedLogs_attemptSend ctx 0 clk (some an) (localPart msg.sender) _
          · simp [countReceivedLogs]
      · simp [countReceivedLogs]
    · simp [countReceivedLogs]

/-- One field-agent iteration: the trace is paired and holds exactly one
RECEIVED entry when a message arrived, none otherwise. -/
theorem fieldRun_trace_ok (ctx : Ctx) (clk : Clock) (fst : FieldAgent.FieldState)
    (inbound : Option Msg) :
    sentPaired (FieldAgent.run ctx clk fst inbound).effects = true ∧
      countReceivedLogs (FieldAgent.run ctx clk fst inbound).effects =
        (if inbound.isSome then 1 else 0) := by
  have hchunk4 : ∀ k : Nat,
      sentPaired (if (fst.cycle_count + 1) % 4 == 0 then
          FieldAgent.send_status_inform ctx k clk fst.agent_name (fst.cycle_count + 1)
        else ([], k, Option.none)).1 = true ∧
      countReceivedLogs (if (fst.cycle_count + 1) % 4 == 0 then
          FieldAgent.send_status_inform ctx k clk fst.agent_name (fst.cycle_count + 1)
        else ([], k, Option.none)).1 = 0 := by
    intro k
    split
    · exact ⟨sentPaired_attemptSend ctx k clk (some fst.agent_name) "coordinator" _,
        countReceivedLogs_attemptSend ctx k clk (some fst.agent_name) "coordinator" _⟩
    · exact ⟨rfl, rfl⟩
  have hchunk5 : ∀ k : Nat,
      sentPaired (if (fst.cycle_count + 1) % 5 == 0 then
          FieldAgent.report_disaster ctx k clk fst.agent_name (fst.cycle_count + 1)
        else ([], k, Option.none)).1 = true ∧
      countReceivedLogs (if (fst.cycle_count + 1) % 5 == 0 then
          FieldAgent.report_disaster ctx k clk fst.agent_name (fst.cycle_count + 1)
        else ([], k, Option.none)).1 = 0 := by
    intro k
    split
    · exact ⟨sentPaired_attemptSend ctx k clk (some fst.agent_name) "coordinator" _,
        countReceivedLogs_attemptSend ctx k clk (some fst.agent_name) "coordinator" _⟩
    · exact ⟨rfl, rfl⟩
  rcases inbound with _ | msg
  · simp only [FieldAgent.run]
    rcases hS : (if (fst.cycle_count + 1) % 4 == 0 then
        FieldAgent.send_status_inform ctx 0 clk fst.agent_name (fst.cycle_count + 1)
      else ([], 0, Option.none)) with ⟨e2, k2, err2⟩
    obtain ⟨hp2, hr2⟩ : sentPaired e2 = true ∧ countReceivedLogs e2 = 0 := by
      have h := hchunk4 0
      rw [hS] at h
      exact h
    rcases err2 with _ | err2v
    · show sentPaired (([] : List Effect) ++ e2 ++
          (if (fst.cycle_count + 1) % 5 == 0 then
            FieldAgent.report_disaster ctx k2 clk fst.agent_name (fst.cycle_count + 1)
          else ([], k2, Option.none)).1) = true ∧
        countReceivedLogs (([] : List Effect) ++ e2 ++
          (if (fst.cycle_count + 1) % 5 == 0 then
            FieldAgent.report_disaster ctx k2 clk fst.agent_name (fst.cycle_count + 1)
          else ([], k2, Option.none)).1) = 0
      rcases hD : (if (fst.cycle_count + 1) % 5 == 0 then
          FieldAgent.report_disaster ctx k2 clk fst.agent_name (fst.cycle_count + 1)
        else ([], k2, Option.none)) with ⟨e3, k3, err3⟩
      obtain ⟨hp3, hr3⟩ : sentPaired e3 = true ∧ countReceivedLogs e3 = 0 := by
        have h := hchunk5 k2
        rw [hD] at h
        exact h
      constructor
      · exact sentPaired_append _ _ (sentPaired_append _ _ rfl hp2) hp3
      · show countReceivedLogs (([] : List Effect) ++ e2 ++ e3) = 0
        rw [countReceivedLogs_append, countReceivedLogs_append, hr2, hr3]
        rfl
    · constructor
      · show sentPaired (([] : List Effect) ++ e2) = true
        exact sentPaired_append _ _ rfl hp2
      · show countReceivedLogs (([] : List Effect) ++ e2) = 0
        rw [countReceivedLogs_append, hr2]
        rfl
  · simp only [FieldAgent.run]
    rcases hh : FieldAgent.handle_incoming_message ctx clk fst.agent_name
        (fst.cycle_count + 1) msg with ⟨e1, k1, err1⟩
    obtain ⟨hp1, hr1⟩ : sentPaired e1 = true ∧ countReceivedLogs e1 = 1 := by
      have h := fieldHandler_trace_ok ctx clk fst.agent_name (fst.cycle_count + 1) msg
      rw [hh] at h
      exact h
    rcases err1 with _ | err
    · dsimp only
      rcases hS : (if (fst.cycle_count + 1) % 4 == 0 then
          FieldAgent.send_status_inform ctx k1 clk fst.agent_name (fst.cycle_count + 1)
        else ([], k1, Option.none)) with ⟨e2, k2, err2⟩
      obtain ⟨hp2, hr2⟩ : sentPaired e2 = true ∧ countReceivedLogs e2 = 0 := by
        have h := hchunk4 k1
        rw [hS] at h
        exact h
      rcases err2 with _ | err2v
      · dsimp only
        rcases hD : (if (fst.cycle_count + 1) % 5 == 0 then
            FieldAgent.report_disaster ctx k2 clk fst.agent_name (fst.cycle_count + 1)
          else ([], k2, Option.none)) with ⟨e3, k3, err3⟩
        obtain ⟨hp3, hr3⟩ : sentPaired e3 = true ∧ countReceivedLogs e3 = 0 := by
          have h := hchunk5 k2
          rw [hD] at h
          exact h
        constructor
        · show sentPaired (e1 ++ e2 ++ e3) = true
          exact sentPaired_append _ _ (sentPaired_append _ _ hp1 hp2) hp3
        · show countReceivedLogs (e1 ++ e2 ++ e3) = 1
          rw [countReceivedLogs_append, countReceivedLogs_append, hr1, hr2, hr3]
      · constructor
        · show sentPaired (e1 ++ e2) = true
          exact sentPaired_append _ _ hp1 hp2
        · show countReceivedLogs (e1 ++ e2) = 1
          rw [countReceivedLogs_append, hr1, hr2]
    · constructor
      · show sentPaired e1 = true
        exact hp1
      · show countReceivedLogs e1 = 1
        exact hr1

/-- A rendered log entry splits around its direction word: SENT and
RECEIVED entries share one shape, differing only in that slot. -/
theorem renderLogEntry_shape (e : LogEntry) :
    renderLogEntry e = renderDirPre e ++ e.direction ++ renderDirPost e := by
  unfold renderLogEntry renderDirPre renderDirPost
  simp only [String.append_assoc]

/- C8. -/

/-- C8: for each actor and every loop iteration — any behaviour state,
inbound message and transport outcome — the iteration's trace contains
exactly one RECEIVED log entry when a message was received and none
otherwise; every send is immediately followed by its SENT log entry
(same body and performative) and SENT entries appear nowhere else, so
each sent message is logged exactly once before the next iteration
begins; and rendered entries share an identical shape distinguished
only by the direction word. -/
theorem c8_logging_discipline (ctx : Ctx) (clk : Clock)
    (st : CoordinatorAgent.CoordState) (fst : FieldAgent.FieldState)
    (inbound finbound : Option Msg) :
    sentPaired (CoordinatorAgent.run ctx clk st inbound).effects = true ∧
      countReceivedLogs (CoordinatorAgent.run ctx clk st inbound).effects =
        (if inbound.isSome then 1 else 0) ∧
      sentPaired (FieldAgent.run ctx clk fst finbound).effects = true ∧
      countReceivedLogs (FieldAgent.run ctx clk fst finbound).effects =
        (if finbound.isSome then 1 else 0) ∧
      (∀ e : LogEntry, renderLogEntry e = renderDirPre e ++ e.direction ++ renderDirPost e) :=
  ⟨(coordRun_trace_ok ctx clk st inbound).1, (coordRun_trace_ok ctx clk st inbound).2,
   (fieldRun_trace_ok ctx clk fst finbound).1, (fieldRun_trace_ok ctx clk fst finbound).2,
   fun e => renderLogEntry_shape e⟩

/- C9. -/

/-- C9: replaying the same sequence of inbound messages (the iteration
count being the sequence length) against a freshly constructed actor,
under a fixed clock and transport, produces byte-identical log-file
content: each loop is a deterministic function of those inputs, which
the model makes explicit by construction. -/
theorem c9_deterministic_logs (clk : Clock) (ci ci' fi fi' : List (Option Msg))
    (hc : ci = ci') (hf : fi = fi') :
    logBytes (CoordinatorAgent.runSeq okCtx clk CoordinatorAgent.coordInit ci) =
        logBytes (CoordinatorAgent.runSeq okCtx clk CoordinatorAgent.coordInit ci') ∧
      logBytes (FieldAgent.runSeq okCtx clk (FieldAgent.fieldInit "FieldAgent1") fi) =
        logBytes (FieldAgent.runSeq okCtx clk (FieldAgent.fieldInit "FieldAgent1") fi') := by
  subst hc
  subst hf
  exact ⟨rfl, rfl⟩

/-- C9 witness: a concrete two-replay run over three iterations each. -/
theorem c9_witness :
    logBytes (CoordinatorAgent.runSeq okCtx clk0 CoordinatorAgent.coordInit
        [Option.none,
         some ⟨"fieldagent1@404.city", "coordinator@404.city", [("performative", "inform")],
           "\x7b\"status\": \"operational\"\x7d"⟩,
         Option.none]) =
      logBytes (CoordinatorAgent.runSeq okCtx clk0 CoordinatorAgent.coordInit
        [Option.none,
         some ⟨"fieldagent1@404.city", "coordinator@404.city", [("performative", "inform")],
           "\x7b\"status\": \"operational\"\x7d"⟩,
         Option.none]) ∧
      logBytes (FieldAgent.runSeq okCtx clk0 (FieldAgent.fieldInit "FieldAgent1")
        [Option.none, Option.none, Option.none, Option.none]) =
      logBytes (FieldAgent.runSeq okCtx clk0 (FieldAgent.fieldInit "FieldAgent1")
        [Option.none, Option.none, Option.none, Option.none]) :=
  c9_deterministic_logs clk0
    [Option.none,
     some ⟨"fieldagent1@404.city", "coordinator@404.city", [("performative", "inform")],
       "\x7b\"status\": \"operational\"\x7d"⟩,
     Option.none]
    [Option.none,
     some ⟨"fieldagent1@404.city", "coordinator@404.city", [("performative", "inform")],
       "\x7b\"status\": \"operational\"\x7d"⟩,
     Option.none]
    [Option.none, Option.none, Option.none, Option.none]
    [Option.none, Option.none, Option.none, Option.none]
    rfl rfl
